import Mathlib

/-!
Verification of the MediPredict risk-scoring core (`app.py`).

The embedding models the pure computational core of the application: the
safety parsers `s_float` / `s_int`, `compute_bmi`, the three rule-based
scorers `score_diabetes`, `score_hypertension`, `score_heart`, the
guidance composer `ai_guidance`, and the input normalization performed by
the `dashboard` request handler (modelled as `normalize` / `assess`).

Machine reals are modelled as rationals; Python ints as `Int` (scores,
which only accumulate nonnegative increments, as `Nat`). Sequential
`score += ...; reasons.append(...)` accumulation is rendered as an
ordered sum and an ordered list concatenation, in the exact rule order
of the source.
-/

namespace MediPredict

/-- Result triple returned by each scorer: `(category, score, reasons)`. -/
structure ScoreResult where
  category : String
  score : Nat
  reasons : List String
  deriving Repr, DecidableEq

/-- The category line shared verbatim by all three scorers:
`"High" if score >= 7 else "Moderate" if score >= 4 else "Low"`. -/
def categoryOf (score : Nat) : String :=
  if score ≥ 7 then "High" else if score ≥ 4 then "Moderate" else "Low"

/-- `score_diabetes(age, bmi, fasting_glucose, activity, fam_diabetes)`. -/
def score_diabetes (age : ℤ) (bmi : ℚ) (fasting_glucose : ℤ)
    (activity : String) (fam_diabetes : Bool) : ScoreResult :=
  let score : Nat :=
    (if age ≥ 45 then 2 else 0)
    + (if bmi ≥ 30 then 3 else if bmi ≥ 25 then 1 else 0)
    + (if fasting_glucose ≥ 126 then 5 else if fasting_glucose ≥ 100 then 3 else 0)
    + (if activity = "low" then 2 else if activity = "medium" then 1 else 0)
    + (if fam_diabetes then 2 else 0)
  let reasons : List String :=
    (if age ≥ 45 then ["Age ≥ 45 (+2)"] else [])
    ++ (if bmi ≥ 30 then ["BMI ≥ 30 (+3)"]
        else if bmi ≥ 25 then ["BMI 25–29.9 (+1)"] else [])
    ++ (if fasting_glucose ≥ 126 then ["Fasting glucose ≥ 126 mg/dL (+5)"]
        else if fasting_glucose ≥ 100 then ["Fasting glucose 100–125 mg/dL (+3)"] else [])
    ++ (if activity = "low" then ["Low activity (+2)"]
        else if activity = "medium" then ["Moderate activity (+1)"] else [])
    ++ (if fam_diabetes then ["Family history of diabetes (+2)"] else [])
  ⟨categoryOf score, score, reasons⟩

/-- `score_hypertension(age, systolic, diastolic, bmi, smoker)`. -/
def score_hypertension (age systolic diastolic : ℤ) (bmi : ℚ)
    (smoker : Bool) : ScoreResult :=
  let score : Nat :=
    (if systolic ≥ 160 ∨ diastolic ≥ 100 then 5
     else if systolic ≥ 140 ∨ diastolic ≥ 90 then 3
     else if systolic ≥ 130 ∨ diastolic ≥ 80 then 2 else 0)
    + (if age ≥ 55 then 2 else 0)
    + (if bmi ≥ 30 then 2 else if bmi ≥ 25 then 1 else 0)
    + (if smoker then 2 else 0)
  let reasons : List String :=
    (if systolic ≥ 160 ∨ diastolic ≥ 100 then ["Stage 2 BP (≥160/≥100) (+5)"]
     else if systolic ≥ 140 ∨ diastolic ≥ 90 then ["Stage 1 BP (≥140/≥90) (+3)"]
     else if systolic ≥ 130 ∨ diastolic ≥ 80 then ["Elevated BP (≥130/≥80) (+2)"] else [])
    ++ (if age ≥ 55 then ["Age ≥ 55 (+2)"] else [])
    ++ (if bmi ≥ 30 then ["BMI ≥ 30 (+2)"]
        else if bmi ≥ 25 then ["BMI 25–29.9 (+1)"] else [])
    ++ (if smoker then ["Smoker (+2)"] else [])
  ⟨categoryOf score, score, reasons⟩

/-- `score_heart(age, gender, cholesterol, smoker, diabetes_cat, systolic)`. -/
def score_heart (age : ℤ) (gender : String) (cholesterol : ℤ)
    (smoker : Bool) (diabetes_cat : String) (systolic : ℤ) : ScoreResult :=
  let score : Nat :=
    (if (gender = "male" ∧ age ≥ 45) ∨ (gender = "female" ∧ age ≥ 55) then 2 else 0)
    + (if cholesterol ≥ 240 then 3 else if cholesterol ≥ 200 then 2 else 0)
    + (if smoker then 2 else 0)
    + (if diabetes_cat = "High" then 2 else if diabetes_cat = "Moderate" then 1 else 0)
    + (if systolic ≥ 140 then 2 else if systolic ≥ 130 then 1 else 0)
  let reasons : List String :=
    (if (gender = "male" ∧ age ≥ 45) ∨ (gender = "female" ∧ age ≥ 55)
     then ["Age threshold (+2)"] else [])
    ++ (if cholesterol ≥ 240 then ["Total cholesterol ≥ 240 (+3)"]
        else if cholesterol ≥ 200 then ["Total cholesterol 200–239 (+2)"] else [])
    ++ (if smoker then ["Smoker (+2)"] else [])
    ++ (if diabetes_cat = "High" then ["High diabetes risk (+2)"]
        else if diabetes_cat = "Moderate" then ["Moderate diabetes risk (+1)"] else [])
    ++ (if systolic ≥ 140 then ["Systolic BP ≥ 140 (+2)"]
        else if systolic ≥ 130 then ["Systolic BP 130–139 (+1)"] else [])
  ⟨categoryOf score, score, reasons⟩

/-- Rounding of a rational to the nearest integer with ties going to the
even integer, the behaviour of Python `round` on exact decimal values. -/
def roundHalfEven (q : ℚ) : ℤ :=
  let f := ⌊q⌋
  let r := q - f
  if r < 1/2 then f
  else if r > 1/2 then f + 1
  else if f % 2 = 0 then f else f + 1

/-- `round(x, 1)`: round to one decimal place. -/
def round1 (x : ℚ) : ℚ := (roundHalfEven (10 * x) : ℚ) / 10

/-- `compute_bmi(height_cm, weight_kg)`: the source guards with Python
truthiness (`height_cm / 100.0 if height_cm else 0`) followed by a
`h_m <= 0` check returning `0.0`. -/
def compute_bmi (height_cm weight_kg : ℚ) : ℚ :=
  let h_m : ℚ := if height_cm ≠ 0 then height_cm / 100 else 0
  if h_m ≤ 0 then 0 else round1 (weight_kg / (h_m * h_m))

/-- Decomposition of a finite decimal literal: sign, integer part,
fractional digits and their count. -/
structure FloatParts where
  neg : Bool
  ipart : ℕ
  fpart : ℕ
  fplen : ℕ
  deriving Repr, DecidableEq

/-- Value of a digit string read in base 10. -/
def digitsToNat (l : List Char) : ℕ := l.foldl (fun a c => 10 * a + (c.toNat - 48)) 0

/-- Recognizer for the finite-decimal fragment of Python `float(...)`
literals: optional sign, digits, optional fractional digits. Inputs the
Python parser rejects (and exotic accepted forms such as exponents,
which the application forms never produce) yield `none`, which the
safety parsers turn into their default. -/
def parseParts (s : String) : Option FloatParts :=
  let l := s.toList
  let (neg, body) : Bool × List Char :=
    match l with
    | '-' :: rest => (true, rest)
    | '+' :: rest => (false, rest)
    | _ => (false, l)
  match body.splitOn '.' with
  | [ip] =>
      if !ip.isEmpty && ip.all Char.isDigit then
        some ⟨neg, digitsToNat ip, 0, 0⟩
      else none
  | [ip, fp] =>
      if (!ip.isEmpty || !fp.isEmpty) && ip.all Char.isDigit && fp.all Char.isDigit then
        some ⟨neg, digitsToNat ip, digitsToNat fp, fp.length⟩
      else none
  | _ => none

/-- Rational value denoted by a parsed decimal. -/
def partsVal (p : FloatParts) : ℚ :=
  (if p.neg then -1 else 1) * ((p.ipart : ℚ) + (p.fpart : ℚ) / (10 : ℚ) ^ p.fplen)

/-- `float(v)` on a string, as a partial function. -/
def parseFloat? (s : String) : Option ℚ := (parseParts s).map partsVal

/-- `int(q)` for a Python float `q`: truncation toward zero. -/
def pyTrunc (q : ℚ) : ℤ := if 0 ≤ q then ⌊q⌋ else ⌈q⌉

/-- `s_float(v, d)`: `float(v)` with fallback default on any failure,
including an absent value (`float(None)` raises). -/
def s_float (v : Option String) (d : ℚ) : ℚ :=
  match v with
  | none => d
  | some s => (parseFloat? s).getD d

/-- `s_int(v, d)`: `int(float(v))` with fallback default on any failure. -/
def s_int (v : Option String) (d : ℤ) : ℤ :=
  match v with
  | none => d
  | some s =>
    match parseFloat? s with
    | some q => pyTrunc q
    | none => d

/-- Normalized inputs as consumed by the scorers and the guidance
composer (the `inputs` dict of the `dashboard` handler, BMI included). -/
structure PatientMetrics where
  gender : String
  age : ℤ
  height_cm : ℚ
  weight_kg : ℚ
  bmi : ℚ
  systolic : ℤ
  diastolic : ℤ
  fasting_glucose : ℤ
  cholesterol : ℤ
  smoker : Bool
  activity : String
  fam_diabetes : Bool
  deriving Repr, DecidableEq

/-- Raw request form: each recognized field either absent (`none`) or an
arbitrary string. -/
structure RawForm where
  gender : Option String
  age : Option String
  height_cm : Option String
  weight_kg : Option String
  systolic : Option String
  diastolic : Option String
  fasting_glucose : Option String
  cholesterol : Option String
  smoker : Option String
  activity : Option String
  fam_diabetes : Option String
  deriving Repr, DecidableEq

/-- Form with every field absent. -/
def RawForm.empty : RawForm :=
  ⟨none, none, none, none, none, none, none, none, none, none, none⟩

/-- Input normalization of the `dashboard` POST handler: reads each field
with `request.form.get`, applies the safety parsers and the documented
defaults, and derives BMI. -/
def normalize (f : RawForm) : PatientMetrics :=
  let gender := f.gender.getD "male"
  let age := s_int f.age 0
  let height_cm := s_float f.height_cm 0
  let weight_kg := s_float f.weight_kg 0
  let systolic := s_int f.systolic 0
  let diastolic := s_int f.diastolic 0
  let fasting_glucose := s_int f.fasting_glucose 0
  let cholesterol := s_int f.cholesterol 0
  let smoker := f.smoker == some "yes"
  let activity := f.activity.getD "low"
  let fam_diabetes := f.fam_diabetes == some "yes"
  let bmi := compute_bmi height_cm weight_kg
  ⟨gender, age, height_cm, weight_kg, bmi, systolic, diastolic,
   fasting_glucose, cholesterol, smoker, activity, fam_diabetes⟩

/-- The generic encouragement tip of `ai_guidance`. -/
def genericTip : String :=
  "Keep up the great work! Maintain regular activity and balanced meals."

/-- The six tip rules of `ai_guidance`, in source order, before the
generic-tip substitution. -/
def guidance_tips_specific (bmi : ℚ) (fasting_glucose systolic diastolic cholesterol : ℤ)
    (smoker : Bool) (activity : String) : List String :=
  (if bmi ≥ 30 then ["Aim for gradual weight loss (5–7% in 3–6 months)."]
   else if bmi < 18.5 then
     ["Your BMI is low — ensure adequate calories and protein; consider a nutrition consult."]
   else [])
  ++ (if fasting_glucose ≥ 126 then
        ["Fasting glucose is in diabetic range — seek medical evaluation soon."]
      else if fasting_glucose ≥ 100 then
        ["Fasting glucose is elevated — reduce refined sugar and increase fiber."]
      else [])
  ++ (if systolic ≥ 140 ∨ diastolic ≥ 90 then
        ["Lower salt intake, manage stress, and check BP at home 3–4 days/week."]
      else [])
  ++ (if cholesterol ≥ 240 then
        ["Cholesterol is high — consider a lipid panel and Mediterranean-style diet."]
      else if cholesterol ≥ 200 then
        ["Borderline cholesterol — focus on unsaturated fats and regular exercise."]
      else [])
  ++ (if smoker then
        ["Smoking cessation gives the biggest health win — consider a cessation plan."]
      else [])
  ++ (if activity = "low" then
        ["Start with 30 minutes of brisk walking at least 5 days/week."]
      else [])

/-- The final tip list: the source appends the generic tip exactly when
no specific tip fired (`if not tips: tips.append(...)`). -/
def guidance_tips (bmi : ℚ) (fasting_glucose systolic diastolic cholesterol : ℤ)
    (smoker : Bool) (activity : String) : List String :=
  let ts := guidance_tips_specific bmi fasting_glucose systolic diastolic cholesterol
    smoker activity
  if ts = [] then [genericTip] else ts

/-- The fixed closing disclaimer of `ai_guidance`. -/
def disclaimerLine : String :=
  "⚠️ This tool is educational and not a diagnosis. For symptoms or concerns, see a licensed clinician."

/-- Ordered narrative blocks of `ai_guidance`: header, up to three
advisory lines for non-Low categories, the combined tips line, and the
disclaimer. -/
def guidance_parts (m : PatientMetrics) (dCat hCat cCat : String) : List String :=
  ["Based on your details (Age " ++ toString m.age ++ ", BMI " ++ toString m.bmi
    ++ ", BP " ++ toString m.systolic ++ "/" ++ toString m.diastolic
    ++ " mmHg, Fasting Glucose " ++ toString m.fasting_glucose
    ++ " mg/dL, Cholesterol " ++ toString m.cholesterol
    ++ " mg/dL), here’s a quick health check:"]
  ++ (if dCat ≠ "Low" then
        ["• You may be at risk for **diabetes**. Consider checking HbA1c and fasting glucose with a clinician."]
      else [])
  ++ (if hCat ≠ "Low" then
        ["• Your blood pressure profile suggests a **hypertension** risk. Home BP monitoring for 2–3 weeks is helpful."]
      else [])
  ++ (if cCat ≠ "Low" then
        ["• Cardiovascular risk is elevated. Discuss a lipid profile and lifestyle plan with your clinician."]
      else [])
  ++ ["**Care Tips:** " ++ String.intercalate " "
        (guidance_tips m.bmi m.fasting_glucose m.systolic m.diastolic m.cholesterol
          m.smoker m.activity),
      disclaimerLine]

/-- `ai_guidance(inputs, res)`: the narrative is the ordered blocks
joined by line breaks. -/
def ai_guidance (m : PatientMetrics) (dCat hCat cCat : String) : String :=
  String.intercalate "\n" (guidance_parts m dCat hCat cCat)

/-- The result object assembled by the `dashboard` handler. -/
structure Report where
  bmi : ℚ
  diabetes : ScoreResult
  hypertension : ScoreResult
  heart : ScoreResult
  narrative : String
  deriving Repr, DecidableEq

/-- Full assessment pipeline of the `dashboard` POST handler:
normalization, the three scorers in declared order (Heart receives the
finished Diabetes category), and the narrative. -/
def assess (f : RawForm) : Report :=
  let m := normalize f
  let d := score_diabetes m.age m.bmi m.fasting_glucose m.activity m.fam_diabetes
  let h := score_hypertension m.age m.systolic m.diastolic m.bmi m.smoker
  let c := score_heart m.age m.gender m.cholesterol m.smoker d.category m.systolic
  ⟨m.bmi, d, h, c, ai_guidance m d.category h.category c.category⟩

end MediPredict

namespace MediPredict

/-! ### Shared helper lemmas -/

theorem categoryOf_spec (s : Nat) :
    ((categoryOf s = "High") ↔ 7 ≤ s) ∧ ((categoryOf s = "Moderate") ↔ (4 ≤ s ∧ s ≤ 6))
      ∧ ((categoryOf s = "Low") ↔ s ≤ 3) := by
  unfold categoryOf
  split_ifs <;> refine ⟨?_, ?_, ?_⟩ <;> simp <;> omega

/-- Spec-side characterization of a scorer result: the uniform category
thresholds, stated on the result. -/
def categories_match_thresholds (r : ScoreResult) : Prop :=
  ((r.category = "High") ↔ 7 ≤ r.score) ∧
  ((r.category = "Moderate") ↔ (4 ≤ r.score ∧ r.score ≤ 6)) ∧
  ((r.category = "Low") ↔ r.score ≤ 3)

theorem categories_match_thresholds_of_eq (r : ScoreResult)
    (h : r.category = categoryOf r.score) : categories_match_thresholds r := by
  unfold categories_match_thresholds
  rw [h]
  exact categoryOf_spec r.score

/-! ### Claim theorems -/

/-- C1: every result of the three scorers satisfies the uniform category
thresholds — category is "High" iff score ≥ 7, "Moderate" iff
4 ≤ score ≤ 6, "Low" iff score ≤ 3 — and the shared category function
maps the boundary scores 3, 4, 6, 7 to Low, Moderate, Moderate, High. -/
theorem category_thresholds_uniform :
    ∀ (age : ℤ) (bmi : ℚ) (fg sys dia chol : ℤ) (act gen dcat : String) (sm fd : Bool),
      categories_match_thresholds (score_diabetes age bmi fg act fd) ∧
      categories_match_thresholds (score_hypertension age sys dia bmi sm) ∧
      categories_match_thresholds (score_heart age gen chol sm dcat sys) ∧
      (categoryOf 3 = "Low" ∧ categoryOf 4 = "Moderate" ∧
       categoryOf 6 = "Moderate" ∧ categoryOf 7 = "High") := by
  intro age bmi fg sys dia chol act gen dcat sm fd
  exact ⟨categories_match_thresholds_of_eq _ rfl,
         categories_match_thresholds_of_eq _ rfl,
         categories_match_thresholds_of_eq _ rfl,
         by decide, by decide, by decide, by decide⟩

/-- C2: the diabetes score is the additive sum of the five rule groups
(age, BMI ladder, fasting-glucose ladder, activity ladder, family
history), and on the scenario age = 50, BMI from height 170 / weight
92.5 (= 32.0), fasting glucose 130, low activity, family history, the
scorer returns score 14, category "High", and one reason per fired rule
in table order. -/
theorem diabetes_additive_and_scenario_A :
    (∀ (age : ℤ) (bmi : ℚ) (fg : ℤ) (act : String) (fd : Bool),
      (score_diabetes age bmi fg act fd).score =
        (if age ≥ 45 then 2 else 0)
        + (if bmi ≥ 30 then 3 else if bmi ≥ 25 then 1 else 0)
        + (if fg ≥ 126 then 5 else if fg ≥ 100 then 3 else 0)
        + (if act = "low" then 2 else if act = "medium" then 1 else 0)
        + (if fd then 2 else 0)) ∧
    compute_bmi 170 92.5 = 32 ∧
    score_diabetes 50 (compute_bmi 170 92.5) 130 "low" true =
      ⟨"High", 14,
        ["Age ≥ 45 (+2)", "BMI ≥ 30 (+3)", "Fasting glucose ≥ 126 mg/dL (+5)",
         "Low activity (+2)", "Family history of diabetes (+2)"]⟩ := by
  have hbmi : compute_bmi 170 92.5 = 32 := by
    norm_num [compute_bmi, round1, roundHalfEven]
  refine ⟨fun age bmi fg act fd => rfl, hbmi, ?_⟩
  rw [hbmi]
  norm_num [score_diabetes, categoryOf]

/-- C3: the blood-pressure contribution of the hypertension scorer is a
single mutually-exclusive ladder in which the highest tier wins, each
tier an OR across the systolic and diastolic thresholds; on the scenario
systolic 125 / diastolic 78, age 40, BMI 22, non-smoker the total score
is 0 and the category is "Low". -/
theorem hypertension_bp_ladder :
    (∀ (age sys dia : ℤ) (bmi : ℚ) (sm : Bool),
      ("Stage 2 BP (≥160/≥100) (+5)" ∈ (score_hypertension age sys dia bmi sm).reasons
        ↔ (sys ≥ 160 ∨ dia ≥ 100)) ∧
      ("Stage 1 BP (≥140/≥90) (+3)" ∈ (score_hypertension age sys dia bmi sm).reasons
        ↔ (¬(sys ≥ 160 ∨ dia ≥ 100) ∧ (sys ≥ 140 ∨ dia ≥ 90))) ∧
      ("Elevated BP (≥130/≥80) (+2)" ∈ (score_hypertension age sys dia bmi sm).reasons
        ↔ (¬(sys ≥ 160 ∨ dia ≥ 100) ∧ ¬(sys ≥ 140 ∨ dia ≥ 90) ∧
            (sys ≥ 130 ∨ dia ≥ 80)))) ∧
    score_hypertension 40 125 78 22 false = ⟨"Low", 0, []⟩ := by
  constructor
  · intro age sys dia bmi sm
    unfold score_hypertension
    split_ifs <;> simp_all
  · norm_num [score_hypertension, categoryOf]

set_option maxHeartbeats 2000000 in
/-- C4: the heart scorer applies the gender-conditioned age rule, the
cholesterol ladder, the smoker rule, the diabetes-category contribution
and the systolic ladder — each reason appears exactly under its rule
condition — and on the scenario gender female, age 60, cholesterol 250,
smoker, diabetes category "Moderate", systolic 145 it returns score 10
and category "High". -/
theorem heart_rules_and_scenario_C :
    (∀ (age : ℤ) (gen : String) (chol : ℤ) (sm : Bool) (dcat : String) (sys : ℤ),
      ("Age threshold (+2)" ∈ (score_heart age gen chol sm dcat sys).reasons
        ↔ ((gen = "male" ∧ age ≥ 45) ∨ (gen = "female" ∧ age ≥ 55))) ∧
      ("Total cholesterol ≥ 240 (+3)" ∈ (score_heart age gen chol sm dcat sys).reasons
        ↔ chol ≥ 240) ∧
      ("Total cholesterol 200–239 (+2)" ∈ (score_heart age gen chol sm dcat sys).reasons
        ↔ (¬chol ≥ 240 ∧ chol ≥ 200)) ∧
      ("Smoker (+2)" ∈ (score_heart age gen chol sm dcat sys).reasons ↔ sm = true) ∧
      ("High diabetes risk (+2)" ∈ (score_heart age gen chol sm dcat sys).reasons
        ↔ dcat = "High") ∧
      ("Moderate diabetes risk (+1)" ∈ (score_heart age gen chol sm dcat sys).reasons
        ↔ dcat = "Moderate") ∧
      ("Systolic BP ≥ 140 (+2)" ∈ (score_heart age gen chol sm dcat sys).reasons
        ↔ sys ≥ 140) ∧
      ("Systolic BP 130–139 (+1)" ∈ (score_heart age gen chol sm dcat sys).reasons
        ↔ (¬sys ≥ 140 ∧ sys ≥ 130))) ∧
    score_heart 60 "female" 250 true "Moderate" 145 =
      ⟨"High", 10,
        ["Age threshold (+2)", "Total cholesterol ≥ 240 (+3)", "Smoker (+2)",
         "Moderate diabetes risk (+1)", "Systolic BP ≥ 140 (+2)"]⟩ := by
  constructor
  · intro age gen chol sm dcat sys
    unfold score_heart
    split_ifs <;> simp_all
  · norm_num [score_heart, categoryOf]
    decide

/-- C5: for positive height, `compute_bmi` is the weight divided by the
squared height in metres, rounded to one decimal place; for
non-positive height it returns 0.0 without faulting; and
`compute_bmi 170 70 = 24.2`, `compute_bmi 0 70 = 0.0`. -/
theorem compute_bmi_spec (h w : ℚ) :
    (0 < h → compute_bmi h w = round1 (w / (h / 100) ^ 2)) ∧
    (h ≤ 0 → compute_bmi h w = 0) ∧
    compute_bmi 170 70 = 24.2 ∧ compute_bmi 0 70 = 0 := by
  refine ⟨?_, ?_, ?_, ?_⟩
  · intro hp
    unfold compute_bmi
    have h0 : h ≠ 0 := ne_of_gt hp
    have h1 : ¬ (h / 100 ≤ 0) := by rw [not_le]; positivity
    simp only [h0, if_true, if_neg h1, ne_eq, not_false_eq_true, ite_true]
    ring_nf
  · intro hle
    unfold compute_bmi
    rcases eq_or_lt_of_le hle with heq | hlt
    · simp [← heq]
    · have h0 : h ≠ 0 := ne_of_lt hlt
      have h1 : h / 100 ≤ 0 := by linarith
      simp [h0, h1]
  · norm_num [compute_bmi, round1, roundHalfEven]
  · norm_num [compute_bmi]

/-- Witness for C5 at height 170, weight 70: the hypotheses of both
implications are settled at concrete inputs. -/
theorem compute_bmi_spec_witness :
    compute_bmi 170 70 = round1 (70 / ((170 : ℚ) / 100) ^ 2) ∧ compute_bmi (-5) 70 = 0 :=
  ⟨(compute_bmi_spec 170 70).1 (by norm_num),
   (compute_bmi_spec (-5) 70).2.1 (by norm_num)⟩

end MediPredict

namespace MediPredict

/-! ### Concrete forms used in counterexamples and witnesses -/

/-- Form carrying an unrecognized gender token and an age of 50. -/
def formOther : RawForm :=
  ⟨some "other", some "50", none, none, none, none, none, none, none, none, none⟩

/-- Form identical to `formOther` except the gender field is absent. -/
def formAbsent : RawForm :=
  ⟨none, some "50", none, none, none, none, none, none, none, none, none⟩

/-- Form carrying unrecognized tokens in both enum fields. -/
def formEnum : RawForm :=
  ⟨some "other", none, none, none, none, none, none, none, none, some "extreme", none⟩

/-- Form that varies only fields the diabetes scorer does not consume
(gender, systolic, diastolic, cholesterol, smoker). -/
def formVaried : RawForm :=
  ⟨some "female", none, none, none, some "180", some "95", none, some "300",
   some "yes", none, none⟩

theorem s_int_none (d : ℤ) : s_int none d = d := rfl

theorem s_float_none (d : ℚ) : s_float none d = d := rfl

theorem s_int_50 : s_int (some "50") 0 = 50 := by
  simp only [s_int]
  rw [show parseFloat? "50" = some (partsVal ⟨false, 50, 0, 0⟩) from rfl]
  norm_num [partsVal, pyTrunc]

theorem norm_formOther :
    normalize formOther = ⟨"other", 50, 0, 0, 0, 0, 0, 0, 0, false, "low", false⟩ := by
  simp [normalize, formOther, s_int_50, s_int_none, s_float_none, compute_bmi]

theorem norm_formAbsent :
    normalize formAbsent = ⟨"male", 50, 0, 0, 0, 0, 0, 0, 0, false, "low", false⟩ := by
  simp [normalize, formAbsent, s_int_50, s_int_none, s_float_none, compute_bmi]

/-- C6 counterexample: the raw token "other" is outside the gender
enumeration, yet the normalization keeps it verbatim instead of
substituting the default "male"; the unrecognized token reaches the
heart scorer and yields a different score (1) than the absent-field
default does (3). -/
theorem enum_substitution_counterexample :
    (normalize formOther).gender = "other" ∧
    "other" ≠ "male" ∧
    (assess formOther).heart.score = 1 ∧
    (assess formAbsent).heart.score = 3 := by
  refine ⟨by rw [norm_formOther], by decide, ?_, ?_⟩
  · simp only [assess, norm_formOther]
    norm_num [score_diabetes, score_heart, categoryOf]
    decide
  · simp only [assess, norm_formAbsent]
    norm_num [score_diabetes, score_heart, categoryOf]
    decide

/-- C6 (amended): the Normalizer substitutes the fixed defaults ("male",
"low") for the enum fields only when the field is absent; a present
token — recognized or not — passes through to the scorers unchanged. -/
theorem enum_fields_passthrough (f : RawForm) (g a : String) :
    (f.gender = some g → (normalize f).gender = g) ∧
    (f.gender = none → (normalize f).gender = "male") ∧
    (f.activity = some a → (normalize f).activity = a) ∧
    (f.activity = none → (normalize f).activity = "low") := by
  refine ⟨fun h => ?_, fun h => ?_, fun h => ?_, fun h => ?_⟩ <;> simp [normalize, h]

/-- Witness for the amended C6: present unrecognized tokens survive
normalization, absent fields receive the defaults. -/
theorem enum_fields_passthrough_witness :
    (normalize formEnum).gender = "other" ∧ (normalize RawForm.empty).gender = "male" ∧
    (normalize formEnum).activity = "extreme" ∧
    (normalize RawForm.empty).activity = "low" :=
  ⟨(enum_fields_passthrough formEnum "other" "extreme").1 rfl,
   (enum_fields_passthrough RawForm.empty "other" "extreme").2.1 rfl,
   (enum_fields_passthrough formEnum "other" "extreme").2.2.1 rfl,
   (enum_fields_passthrough RawForm.empty "other" "extreme").2.2.2 rfl⟩

theorem categoryOf_cases (s : Nat) :
    categoryOf s = "Low" ∨ categoryOf s = "Moderate" ∨ categoryOf s = "High" := by
  unfold categoryOf
  split_ifs <;> simp

/-- C7: the assessment pipeline is total on arbitrary raw forms — every
form, however malformed, yields a report whose three categories are
valid, whose BMI is derived from the parsed height and weight, and whose
narrative blocks end with the disclaimer — and every numeric parse
failure or absence degrades to the documented zero default. -/
theorem pipeline_total_wellformed :
    (∀ f : RawForm,
      ((assess f).diabetes.category = "Low" ∨ (assess f).diabetes.category = "Moderate" ∨
        (assess f).diabetes.category = "High") ∧
      ((assess f).hypertension.category = "Low" ∨
        (assess f).hypertension.category = "Moderate" ∨
        (assess f).hypertension.category = "High") ∧
      ((assess f).heart.category = "Low" ∨ (assess f).heart.category = "Moderate" ∨
        (assess f).heart.category = "High") ∧
      (assess f).bmi = compute_bmi (s_float f.height_cm 0) (s_float f.weight_kg 0) ∧
      disclaimerLine ∈ guidance_parts (normalize f) (assess f).diabetes.category
        (assess f).hypertension.category (assess f).heart.category) ∧
    ((∀ s : String, parseParts s = none → s_int (some s) 0 = 0 ∧ s_float (some s) 0 = 0) ∧
      s_int none 0 = 0 ∧ s_float none 0 = 0) := by
  constructor
  · intro f
    refine ⟨categoryOf_cases _, categoryOf_cases _, categoryOf_cases _, rfl, ?_⟩
    simp [guidance_parts, disclaimerLine]
  · refine ⟨fun s hs => ⟨?_, ?_⟩, rfl, rfl⟩
    · simp [s_int, parseFloat?, hs]
    · simp [s_float, parseFloat?, hs]

/-- Witness for C7 at the malformed token "abc": both parsers fall back
to their zero defaults. -/
theorem pipeline_total_wellformed_witness :
    s_int (some "abc") 0 = 0 ∧ s_float (some "abc") 0 = 0 :=
  pipeline_total_wellformed.2.1 "abc" rfl

theorem score_diabetes_score_eq (age : ℤ) (bmi : ℚ) (fg : ℤ) (act : String) (fd : Bool) :
    (score_diabetes age bmi fg act fd).score =
      (if age ≥ 45 then 2 else 0)
      + (if bmi ≥ 30 then 3 else if bmi ≥ 25 then 1 else 0)
      + (if fg ≥ 126 then 5 else if fg ≥ 100 then 3 else 0)
      + (if act = "low" then 2 else if act = "medium" then 1 else 0)
      + (if fd then 2 else 0) := rfl

/-- C8: the diabetes score is monotonically non-decreasing in age, BMI
and fasting glucose, and the diabetes assessment of the pipeline is
unchanged by any variation of the fields the scorer does not consume
(gender, systolic, diastolic, cholesterol, smoker). -/
theorem diabetes_monotone_and_independent :
    (∀ (a a' : ℤ) (b : ℚ) (g : ℤ) (act : String) (fd : Bool), a ≤ a' →
      (score_diabetes a b g act fd).score ≤ (score_diabetes a' b g act fd).score) ∧
    (∀ (a : ℤ) (b b' : ℚ) (g : ℤ) (act : String) (fd : Bool), b ≤ b' →
      (score_diabetes a b g act fd).score ≤ (score_diabetes a b' g act fd).score) ∧
    (∀ (a : ℤ) (b : ℚ) (g g' : ℤ) (act : String) (fd : Bool), g ≤ g' →
      (score_diabetes a b g act fd).score ≤ (score_diabetes a b g' act fd).score) ∧
    (∀ f f' : RawForm, f.age = f'.age → f.height_cm = f'.height_cm →
      f.weight_kg = f'.weight_kg → f.fasting_glucose = f'.fasting_glucose →
      f.activity = f'.activity → f.fam_diabetes = f'.fam_diabetes →
      (assess f).diabetes = (assess f').diabetes) := by
  refine ⟨?_, ?_, ?_, ?_⟩
  · intro a a' b g act fd h
    rw [score_diabetes_score_eq, score_diabetes_score_eq]
    gcongr
    split_ifs <;> omega
  · intro a b b' g act fd h
    rw [score_diabetes_score_eq, score_diabetes_score_eq]
    gcongr
    split_ifs <;> first | omega | (exfalso; linarith)
  · intro a b g g' act fd h
    rw [score_diabetes_score_eq, score_diabetes_score_eq]
    gcongr
    split_ifs <;> omega
  · intro f f' h1 h2 h3 h4 h5 h6
    simp only [assess, normalize]
    rw [h1, h2, h3, h4, h5, h6]

/-- Witness for C8: each monotonicity hypothesis and the six
field-agreement hypotheses are discharged at concrete inputs; the raw
forms differ exactly in gender, systolic, diastolic, cholesterol and
smoker. -/
theorem diabetes_monotone_and_independent_witness :
    ((score_diabetes 40 22 90 "high" false).score ≤
      (score_diabetes 46 22 90 "high" false).score) ∧
    ((score_diabetes 40 22 90 "high" false).score ≤
      (score_diabetes 40 31 90 "high" false).score) ∧
    ((score_diabetes 40 22 90 "high" false).score ≤
      (score_diabetes 40 22 130 "high" false).score) ∧
    (assess RawForm.empty).diabetes = (assess formVaried).diabetes :=
  ⟨diabetes_monotone_and_independent.1 40 46 22 90 "high" false (by norm_num),
   diabetes_monotone_and_independent.2.1 40 22 31 90 "high" false (by norm_num),
   diabetes_monotone_and_independent.2.2.1 40 22 90 130 "high" false (by norm_num),
   diabetes_monotone_and_independent.2.2.2 RawForm.empty formVaried
     rfl rfl rfl rfl rfl rfl⟩

set_option maxHeartbeats 4000000 in
theorem guidance_tips_specific_nil_iff (b : ℚ) (fg sys dia chol : ℤ) (sm : Bool)
    (act : String) :
    guidance_tips_specific b fg sys dia chol sm act = [] ↔
      ¬((b ≥ 30 ∨ b < 18.5) ∨ (fg ≥ 126 ∨ fg ≥ 100) ∨ (sys ≥ 140 ∨ dia ≥ 90) ∨
        (chol ≥ 240 ∨ chol ≥ 200) ∨ sm = true ∨ act = "low") := by
  unfold guidance_tips_specific
  split_ifs <;> simp_all

set_option maxHeartbeats 4000000 in
theorem genericTip_not_mem_specific (b : ℚ) (fg sys dia chol : ℤ) (sm : Bool)
    (act : String) :
    genericTip ∉ guidance_tips_specific b fg sys dia chol sm act := by
  unfold guidance_tips_specific genericTip
  split_ifs <;> simp_all

/-- C9: the combined tips contain the generic encouragement tip exactly
when none of the six tip conditions fires; when any condition fires the
tips are exactly the specific tips in their fixed evaluation order, and
the generic tip is not among them. -/
theorem generic_tip_iff_no_condition (b : ℚ) (fg sys dia chol : ℤ) (sm : Bool)
    (act : String) :
    (genericTip ∈ guidance_tips b fg sys dia chol sm act ↔
      ¬((b ≥ 30 ∨ b < 18.5) ∨ (fg ≥ 126 ∨ fg ≥ 100) ∨ (sys ≥ 140 ∨ dia ≥ 90) ∨
        (chol ≥ 240 ∨ chol ≥ 200) ∨ sm = true ∨ act = "low")) ∧
    (((b ≥ 30 ∨ b < 18.5) ∨ (fg ≥ 126 ∨ fg ≥ 100) ∨ (sys ≥ 140 ∨ dia ≥ 90) ∨
        (chol ≥ 240 ∨ chol ≥ 200) ∨ sm = true ∨ act = "low") →
      guidance_tips b fg sys dia chol sm act =
        guidance_tips_specific b fg sys dia chol sm act ∧
      genericTip ∉ guidance_tips b fg sys dia chol sm act) := by
  constructor
  · unfold guidance_tips
    by_cases hnil : guidance_tips_specific b fg sys dia chol sm act = []
    · simp [hnil, (guidance_tips_specific_nil_iff b fg sys dia chol sm act).mp hnil]
    · simp only [hnil, if_false]
      constructor
      · intro hmem
        exact absurd hmem (genericTip_not_mem_specific b fg sys dia chol sm act)
      · intro hno
        exact absurd ((guidance_tips_specific_nil_iff b fg sys dia chol sm act).mpr hno)
          hnil
  · intro hcond
    have hnil : guidance_tips_specific b fg sys dia chol sm act ≠ [] := by
      intro h
      exact (guidance_tips_specific_nil_iff b fg sys dia chol sm act).mp h hcond
    unfold guidance_tips
    simp only [hnil, if_false]
    exact ⟨trivial, genericTip_not_mem_specific b fg sys dia chol sm act⟩

/-- Witness for C9 with BMI 35 (the weight-loss condition fires): the
tips equal the specific tips and exclude the generic one. -/
theorem generic_tip_iff_no_condition_witness :
    guidance_tips 35 0 0 0 0 false "x" = guidance_tips_specific 35 0 0 0 0 false "x" ∧
    genericTip ∉ guidance_tips 35 0 0 0 0 false "x" :=
  (generic_tip_iff_no_condition 35 0 0 0 0 false "x").2 (Or.inl (Or.inl (by norm_num)))

set_option maxHeartbeats 4000000 in
/-- C10: for each scorer the returned score is 0 exactly when the
returned reasons list is empty — every fired rule contributes positive
points and one reason. -/
theorem score_zero_iff_no_reasons (age : ℤ) (bmi : ℚ) (fg sys dia chol : ℤ)
    (act gen dcat : String) (sm fd : Bool) :
    ((score_diabetes age bmi fg act fd).score = 0 ↔
      (score_diabetes age bmi fg act fd).reasons = []) ∧
    ((score_hypertension age sys dia bmi sm).score = 0 ↔
      (score_hypertension age sys dia bmi sm).reasons = []) ∧
    ((score_heart age gen chol sm dcat sys).score = 0 ↔
      (score_heart age gen chol sm dcat sys).reasons = []) := by
  refine ⟨?_, ?_, ?_⟩
  · unfold score_diabetes
    split_ifs <;> simp
  · unfold score_hypertension
    split_ifs <;> simp
  · unfold score_heart
    split_ifs <;> simp

end MediPredict
